import Mathlib

/-!
Shallow embedding of the `guichet` package (module `src/guichet/guichet.py`):
a GUI generator that introspects a callable's signature, builds a PySimpleGUI
layout (one labelled input per parameter, a run button, a multiline output
region), and drives an event loop that coerces UI values through the
parameters' annotations and invokes the callable, optionally on a background
worker thread.

Python values are modelled by `PyVal`, annotations by `Ann`, exceptions by
`PyErr` (for conversion failures) or a `String` carrying `str(e)` (for
exceptions raised by the wrapped callable).  The mutable `Guichet` object is
modelled as a state record threaded through explicit setter functions, and
one iteration of the `render` event loop is the function `loopIter`.
-/

namespace Guichet

/-- Python runtime values that flow through the system: UI widgets produce
strings and booleans, annotations convert them to ints/floats/strings/bools,
`pydantic.SecretStr` wraps a value, and the live window object can be injected
as an argument. -/
inductive PyVal where
  | none
  | bool (b : Bool)
  | int (n : ℤ)
  | float (q : ℚ)
  | str (s : String)
  | secret (v : PyVal)
  | window
deriving DecidableEq, Repr

/-- Python `str()` on the values above (`str(None) = "None"`, `str(True) =
"True"`, ...).  Rationals are shown with Lean's rational notation; no claim
exercises the display of a float. -/
def pyStr : PyVal → String
  | .none => "None"
  | .bool b => if b then "True" else "False"
  | .int n => toString n
  | .float q => toString q
  | .str s => s
  | .secret _ => "**********"
  | .window => "<window>"

/-- Python truthiness (`bool(v)`). -/
def pyTruthy : PyVal → Bool
  | .none => false
  | .bool b => b
  | .int n => n ≠ 0
  | .float q => q ≠ 0
  | .str s => s ≠ ""
  | .secret _ => true
  | .window => true

/-- The two exception classes the coercion code distinguishes: the `except
TypeError` handler in `render` catches the first and lets the second
propagate. -/
inductive PyErr where
  | typeError
  | valueError
deriving DecidableEq, Repr

/-- Value of a nonempty all-digit character list, `Option.none` otherwise. -/
def digitsVal : List Char → Option ℕ
  | [] => Option.none
  | l =>
    l.foldl
      (fun acc c =>
        acc.bind (fun n => if c.isDigit then some (n * 10 + (c.toNat - 48)) else Option.none))
      (some 0)

/-- Python `int(s)` on a string: optional sign followed by digits, otherwise a
`ValueError`.  (Surrounding whitespace and digit-group underscores, which
CPython also accepts, are not modelled; no claim exercises them.) -/
def parseIntStr : String → Option ℤ
  | s =>
    match s.data with
    | '-' :: rest => (digitsVal rest).map (fun n => -(n : ℤ))
    | '+' :: rest => (digitsVal rest).map (fun n => (n : ℤ))
    | l => (digitsVal l).map (fun n => (n : ℤ))

/-- Unsigned decimal literal (`"3"`, `"3.5"`, `"3."`, `".5"`) as a rational. -/
def parseUnsignedFloat (s : String) : Option ℚ :=
  match s.split (· = '.') with
  | [a] => (digitsVal a.data).map (fun n => (n : ℚ))
  | [a, b] =>
    if a.isEmpty && b.isEmpty then Option.none
    else
      let ip := if a.isEmpty then some 0 else digitsVal a.data
      let fp := if b.isEmpty then some (0, 0) else (digitsVal b.data).map (fun n => (n, b.length))
      match ip, fp with
      | some i, some (f, k) => some ((i : ℚ) + (f : ℚ) / (10 : ℚ) ^ k)
      | _, _ => Option.none
  | _ => Option.none

/-- Python `float(s)` on a string: optional sign and a simple decimal literal,
otherwise a `ValueError`.  (Exponents, `"inf"`/`"nan"` and whitespace are not
modelled; no claim exercises them.) -/
def parseFloatStr (s : String) : Option ℚ :=
  match s.data with
  | '-' :: rest => (parseUnsignedFloat (String.mk rest)).map (fun q => -q)
  | '+' :: rest => parseUnsignedFloat (String.mk rest)
  | _ => parseUnsignedFloat s

/-- Python `int(q)` for a float: truncation toward zero. -/
def truncQ (q : ℚ) : ℤ := if 0 ≤ q then ⌊q⌋ else ⌈q⌉

/-- Parameter annotations as they occur in the program: absent
(`inspect._empty`), the four builtin types of `_TYPE_MAP`,
`pydantic.SecretStr`, or any other annotation.  An `other` annotation carries
its own behaviour when called as a one-argument conversion function, since an
arbitrary class may convert or raise in arbitrary ways. -/
inductive Ann where
  | empty
  | aint
  | afloat
  | astr
  | abool
  | secretStr
  | other (conv : PyVal → Except PyErr PyVal)

/-- Calling a parameter's annotation as a one-argument conversion function,
as `render` does with `p.annotation(v)`: `int(v)`, `float(v)`, `str(v)`,
`bool(v)`, `SecretStr(v)`, or `inspect._empty(v)` — the last always raises
`TypeError` because the `_empty` sentinel class takes no constructor
argument. -/
def applyAnn : Ann → PyVal → Except PyErr PyVal
  | .empty, _ => .error .typeError
  | .aint, .str s =>
    match parseIntStr s with
    | some n => .ok (.int n)
    | Option.none => .error .valueError
  | .aint, .bool b => .ok (.int (if b then 1 else 0))
  | .aint, .int n => .ok (.int n)
  | .aint, .float q => .ok (.int (truncQ q))
  | .aint, _ => .error .typeError
  | .afloat, .str s =>
    match parseFloatStr s with
    | some q => .ok (.float q)
    | Option.none => .error .valueError
  | .afloat, .bool b => .ok (.float (if b then 1 else 0))
  | .afloat, .int n => .ok (.float (n : ℚ))
  | .afloat, .float q => .ok (.float q)
  | .afloat, _ => .error .typeError
  | .astr, v => .ok (.str (pyStr v))
  | .abool, v => .ok (.bool (pyTruthy v))
  | .secretStr, v => .ok (.secret v)
  | .other conv, v => conv v

/-- One formal parameter of the wrapped callable, as produced by
`inspect.signature(...).parameters`: a name, an annotation, and an optional
default.  `default = Option.none` models the `inspect._empty` sentinel (no
default); `default = some .none` models an explicit `None` default. -/
structure Param where
  name : String
  ann : Ann
  default : Option PyVal

/-- The `Except TypeError` block of `render` around `p.annotation(v)`:
a successful conversion is used, a `TypeError` falls back to the raw UI
value, and any other exception (notably `ValueError`) propagates. -/
def coerceArg (p : Param) (v : PyVal) : Except PyErr PyVal :=
  match applyAnn p.ann v with
  | .ok w => .ok w
  | .error .typeError => .ok v
  | .error e => .error e

/-- The two PySimpleGUI input element classes that `_TYPE_MAP` maps to:
`sg.InputText` and `sg.Checkbox`. -/
inductive WidgetKind where
  | inputText
  | checkbox
deriving DecidableEq, Repr

/-- An input element together with the extra keyword options the type map
attaches to it (the `(sg_element, kwargs)` tuple form of a `_TYPE_MAP`
entry). -/
structure WidgetSpec where
  kind : WidgetKind
  opts : List (String × String)
deriving DecidableEq, Repr

/-- The `_TYPE_MAP` class attribute: a dictionary from annotation to input
element, where the `SecretStr` entry is the tuple pairing `sg.InputText`
with the keyword option `password_char="*"`.  `Option.none` models a key
that is absent from the dictionary. -/
def typeMap : Ann → Option WidgetSpec
  | .aint => some ⟨.inputText, []⟩
  | .afloat => some ⟨.inputText, []⟩
  | .astr => some ⟨.inputText, []⟩
  | .abool => some ⟨.checkbox, []⟩
  | .secretStr => some ⟨.inputText, [("password_char", "*")]⟩
  | _ => Option.none

/-- The lookup `Guichet._TYPE_MAP.get(p.annotation, sg.InputText)` followed by the tuple
unpacking in `_make_layout`: the dictionary lookup with `sg.InputText` (and
empty kwargs) as the fallback. -/
def widgetFor (a : Ann) : WidgetSpec := (typeMap a).getD ⟨.inputText, []⟩

/-- One row of the generated layout: a parameter row
`[sg.Text(p.name), sg_element(initial, **kwargs)]` (flattened to the label,
the widget and the widget's initial value), the run-button row, or the
multiline output row. -/
inductive Row where
  | param (label : String) (w : WidgetSpec) (init : PyVal)
  | button (label : String)
  | output (size : ℕ × ℕ)
deriving DecidableEq, Repr

/-- The configuration attributes of a `Guichet` instance (everything
`__init__` stores besides the wrapped callable itself).  `ignoreParams`
entries are Python values because the `window_param` setter appends the raw
assigned value, which is `None` by default. -/
structure Config where
  title : String
  theme : String
  outputSize : ℕ × ℕ
  buttonLabel : String
  showDefault : Bool
  ignoreParams : List PyVal
  redirectStdout : Bool
  runInNewThread : Bool
  waitMessage : String
  refreshTime : ℕ
  windowParam : PyVal

/-- Python list membership `v in l`. -/
def memberOf (v : PyVal) (l : List PyVal) : Bool := l.any (fun x => x = v)

/-- Source `_get_params`: the parameters of the wrapped callable's signature, in
declaration order, except those whose name occurs in `ignore_params`
(`if not self.ignore_params or p.name not in self.ignore_params`). -/
def getParams (ignore : List PyVal) (sig : List Param) : List Param :=
  sig.filter (fun p => ignore.isEmpty || !(memberOf (.str p.name) ignore))

/-- The row `_make_layout` emits for one parameter:
`sg_element(p.default, **kwargs)` when `p.default != inspect._empty and
self.show_default`, else `sg_element("", **kwargs)`. -/
def paramRow (showDefault : Bool) (p : Param) : Row :=
  match p.default, showDefault with
  | some d, true => .param p.name (widgetFor p.ann) d
  | _, _ => .param p.name (widgetFor p.ann) (.str "")

/-- Source `_make_layout`: one row per visible parameter, then the run button with
the configured label and key `"-RUN-"`, then the multiline output region with
key `"-OUTPUT-"` and the configured size. -/
def makeLayout (cfg : Config) (sig : List Param) : List Row :=
  ((getParams cfg.ignoreParams sig).map (paramRow cfg.showDefault))
    ++ [.button cfg.buttonLabel, .output cfg.outputSize]

/-- The wrapped callable, invoked with keyword arguments: it returns a value
or raises an exception carrying its `str(e)` message (the `render` loop
catches bare `Exception`, so the message is all it observes). -/
def PyFunc : Type := List (String × PyVal) → Except String PyVal

/-- A `Guichet` instance: the wrapped callable, its introspected signature
(`inspect.signature(main_function).parameters`), the configuration
attributes, the stored `self.layout`, and `outputGen`, which counts the
`_make_layout` calls performed so far — each call creates a fresh
`sg.Multiline` output element (assigned to `self._output`) and a fresh layout
list, so the counter models the observable object identity of the stored
layout. -/
structure GuichetState where
  mainFunction : PyFunc
  sig : List Param
  cfg : Config
  layout : List Row
  outputGen : ℕ

/-- Source `self.layout = self._make_layout()`: recompute and store the layout,
creating a fresh output element. -/
def rebuild (st : GuichetState) : GuichetState :=
  { st with layout := makeLayout st.cfg st.sig, outputGen := st.outputGen + 1 }

/-- The `main_function` property setter: store the callable, re-introspect
its signature (`self._params = self._get_params()`), and rebuild the
layout.  (The `TypeError` raised on a non-callable argument is outside this
model: `PyFunc` values are callable by construction.) -/
def setMainFunction (st : GuichetState) (f : PyFunc) (sig : List Param) : GuichetState :=
  rebuild { st with mainFunction := f, sig := sig }

/-- Source `self.title = ...`: a plain attribute write, no property is defined for
it. -/
def setTitle (st : GuichetState) (v : String) : GuichetState :=
  { st with cfg := { st.cfg with title := v } }

/-- Source `self.theme = ...`: a plain attribute write. -/
def setTheme (st : GuichetState) (v : String) : GuichetState :=
  { st with cfg := { st.cfg with theme := v } }

/-- The `output_size` property setter: store and rebuild. -/
def setOutputSize (st : GuichetState) (v : ℕ × ℕ) : GuichetState :=
  rebuild { st with cfg := { st.cfg with outputSize := v } }

/-- The `button_label` property setter: store and rebuild. -/
def setButtonLabel (st : GuichetState) (v : String) : GuichetState :=
  rebuild { st with cfg := { st.cfg with buttonLabel := v } }

/-- The `show_default` property setter: store and rebuild. -/
def setShowDefault (st : GuichetState) (v : Bool) : GuichetState :=
  rebuild { st with cfg := { st.cfg with showDefault := v } }

/-- The `ignore_params` property setter: `None` becomes the empty list, then
rebuild. -/
def setIgnoreParams (st : GuichetState) (v : Option (List PyVal)) : GuichetState :=
  rebuild { st with cfg := { st.cfg with ignoreParams := v.getD [] } }

/-- Source `self.redirect_stdout = ...`: a plain attribute write. -/
def setRedirectStdout (st : GuichetState) (v : Bool) : GuichetState :=
  { st with cfg := { st.cfg with redirectStdout := v } }

/-- Source `self.run_in_new_thread = ...`: a plain attribute write. -/
def setRunInNewThread (st : GuichetState) (v : Bool) : GuichetState :=
  { st with cfg := { st.cfg with runInNewThread := v } }

/-- Source `self.wait_message = ...`: a plain attribute write. -/
def setWaitMessage (st : GuichetState) (v : String) : GuichetState :=
  { st with cfg := { st.cfg with waitMessage := v } }

/-- Source `self.refresh_time = ...`: a plain attribute write. -/
def setRefreshTime (st : GuichetState) (v : ℕ) : GuichetState :=
  { st with cfg := { st.cfg with refreshTime := v } }

/-- The `window_param` property setter: store the value, append it to
`ignore_params` when it is not already a member (an in-place `append` on the
same list object), and rebuild. -/
def setWindowParam (st : GuichetState) (v : PyVal) : GuichetState :=
  let ig := st.cfg.ignoreParams
  let ig' := if memberOf v ig then ig else ig ++ [v]
  rebuild { st with cfg := { st.cfg with windowParam := v, ignoreParams := ig' } }

/-- Python `title or main_function.__name__`: the alternative is used when
the value is `None` or the empty string (both falsy). -/
def pyOrStr (v : Option String) (alt : String) : String :=
  match v with
  | some t => if t = "" then alt else t
  | Option.none => alt

/-- The keyword arguments of `__init__` other than `main_function`, with
`Option` marking the arguments whose Python default is `None`. -/
structure InitArgs where
  title : Option String
  outputSize : ℕ × ℕ
  buttonLabel : String
  theme : String
  showDefault : Bool
  ignoreParams : Option (List PyVal)
  redirectStdout : Bool
  runInNewThread : Bool
  waitMessage : String
  refreshTime : ℕ
  windowParam : PyVal

/-- The documented default values of the `__init__` keyword arguments. -/
def defaultInitArgs : InitArgs :=
  { title := Option.none
    outputSize := (80, 20)
    buttonLabel := "Run"
    theme := "Dark Blue 3"
    showDefault := true
    ignoreParams := Option.none
    redirectStdout := true
    runInNewThread := false
    waitMessage := "Please wait..."
    refreshTime := 1000
    windowParam := .none }

/-- The state of a `Guichet` object before `__init__` runs: no attribute is
set, and the property getters supply the fallbacks the code relies on
(`ignore_params` memoises `[]`; `show_default`, `button_label`, `output_size`
and `window_param` read as `None`, which the layout code treats like the
falsy values modelled here).  Every field written during `__init__` is
overwritten before the constructor returns. -/
def blankState : GuichetState :=
  { mainFunction := fun _ => .ok .none
    sig := []
    cfg :=
      { title := ""
        theme := ""
        outputSize := (0, 0)
        buttonLabel := ""
        showDefault := false
        ignoreParams := []
        redirectStdout := false
        runInNewThread := false
        waitMessage := ""
        refreshTime := 0
        windowParam := .none }
    layout := []
    outputGen := 0 }

/-- Source `__init__`: the attribute assignments in source order (each going through
its property setter when one is defined), followed by the final
`self.layout = self._make_layout()`.  `fname` is `main_function.__name__`. -/
def guichetInit (f : PyFunc) (fname : String) (sig : List Param) (a : InitArgs) :
    GuichetState :=
  let st := blankState
  let st := setMainFunction st f sig
  let st := setTitle st (pyOrStr a.title fname)
  let st := setOutputSize st a.outputSize
  let st := setButtonLabel st a.buttonLabel
  let st := setTheme st a.theme
  let st := setShowDefault st a.showDefault
  let st := setIgnoreParams st a.ignoreParams
  let st := setRedirectStdout st a.redirectStdout
  let st := setRunInNewThread st a.runInNewThread
  let st := setWaitMessage st a.waitMessage
  let st := setRefreshTime st a.refreshTime
  let st := setWindowParam st a.windowParam
  rebuild st

/-- The coercion loop of `render`:
`for p, v in zip(self._get_params(), values.values())`, building the keyword
argument dictionary in parameter order.  A conversion failure other than
`TypeError` aborts the loop by propagating. -/
def coerceAll (ps : List Param) (vs : List PyVal) :
    Except PyErr (List (String × PyVal)) :=
  (ps.zip vs).mapM (fun pv => (coerceArg pv.1 pv.2).map (fun w => (pv.1.name, w)))

/-- Python dictionary assignment `d[k] = v` on an insertion-ordered
association list. -/
def dictSet (kwargs : List (String × PyVal)) (k : String) (v : PyVal) :
    List (String × PyVal) :=
  if kwargs.any (fun e => e.1 = k) then
    kwargs.map (fun e => if e.1 = k then (k, v) else e)
  else kwargs ++ [(k, v)]

/-- Source `if self.window_param: kwargs[self.window_param] = window` — the live
window object is injected under the configured name when `window_param` is
truthy.  The attribute is `None` or a parameter name (a string) throughout
the API. -/
def injectWindow (wp : PyVal) (kwargs : List (String × PyVal)) :
    List (String × PyVal) :=
  match wp with
  | .str w => if w = "" then kwargs else dictSet kwargs w .window
  | _ => kwargs

/-- A `concurrent.futures` future for one background invocation: the value
the worker will deliver (determined at submission in this pure model) and
whether `future.done()` is true yet. -/
structure Future where
  result : Except String PyVal
  done : Bool
deriving Repr

/-- The mutable state the `render` loop threads between iterations: the
optional background future, the text of the `"-OUTPUT-"` multiline region,
and the lines written to the process standard output. -/
structure LoopState where
  future : Option Future
  output : String
  stdout : List String
deriving Repr

/-- Source `print(...)` inside `render`: when `redirect_stdout` is enabled the
output element's stdout rerouting appends the line (plus newline) to the
output region; otherwise the line goes to the process standard output. -/
def printLine (redirect : Bool) (st : LoopState) (s : String) : LoopState :=
  if redirect then { st with output := st.output ++ s ++ "\n" }
  else { st with stdout := st.stdout ++ [s] }

/-- Source `future is not None and not future.done()`: an invocation is outstanding
and unresolved. -/
def isBusy (st : LoopState) : Bool :=
  match st.future with
  | some f => !f.done
  | Option.none => false

/-- The events `window.read` can deliver to the loop: the `"-RUN-"` button
with the current input values (in layout order), the `"Exit"` event, a
closed window, the custom `"-RUN-IN-GUICHET-"` event carrying a
zero-argument callable payload, or a `refresh_time` timeout with no event. -/
inductive Event where
  | run (vals : List PyVal)
  | exitEv
  | winClosed
  | runInGuichet (payload : Unit → Except String PyVal)
  | timeout

/-- What one iteration of the `while True:` loop does when no exception
escapes: continue with a new state, or `break` out of the loop. -/
inductive StepResult where
  | next (st : LoopState)
  | brk (st : LoopState)
deriving Repr

/-- An exception escaping one loop iteration (and hence `render` itself):
either a conversion failure the coercion `except TypeError` does not catch,
or an exception raised by a `"-RUN-IN-GUICHET-"` payload, which no handler
surrounds. -/
inductive RenderErr where
  | py (e : PyErr)
  | raised (msg : String)
deriving Repr

/-- The head of the loop body in background mode:
`if future is not None and future.done():` consume the result —
`window["-OUTPUT-"].update(future.result())` then `future = None` on
success; on failure `future.result()` re-raises before the clearing
assignment, and the handler writes `f"Error: {e}"` while the future stays
set.  Either way the iteration ends with `continue`.  Returns `Option.none`
when the guard is false. -/
def consumeResolved (st : LoopState) : Option LoopState :=
  match st.future with
  | some f =>
    if f.done then
      match f.result with
      | .ok v => some { st with output := pyStr v, future := Option.none }
      | .error e => some { st with output := "Error: " ++ e }
    else Option.none
  | Option.none => Option.none

/-- The event dispatch of the loop body, after the resolved-future check:
exit events break; the `"-RUN-"` event first applies the busy check in
background mode (`print(self.wait_message); continue`), then coerces the
input values, injects the window argument, and either submits a background
future or invokes the callable inline under
`try: ... except Exception as e: window["-OUTPUT-"].update(f"Error: ...")`;
the `"-RUN-IN-GUICHET-"` event calls its payload with no surrounding
handler. -/
def handleEvent (g : GuichetState) (st : LoopState) (ev : Event) :
    Except RenderErr StepResult :=
  match ev with
  | .exitEv => .ok (.brk st)
  | .winClosed => .ok (.brk st)
  | .run vals =>
    if g.cfg.runInNewThread && isBusy st then
      .ok (.next (printLine g.cfg.redirectStdout st g.cfg.waitMessage))
    else
      match coerceAll (getParams g.cfg.ignoreParams g.sig) vals with
      | .error e => .error (.py e)
      | .ok kw =>
        let kw := injectWindow g.cfg.windowParam kw
        if g.cfg.runInNewThread then
          .ok (.next { st with future := some ⟨g.mainFunction kw, false⟩ })
        else
          match g.mainFunction kw with
          | .ok v => .ok (.next { st with output := pyStr v })
          | .error msg => .ok (.next { st with output := "Error: " ++ msg })
  | .runInGuichet payload =>
    match payload () with
    | .ok _ => .ok (.next st)
    | .error msg => .error (.raised msg)
  | .timeout => .ok (.next st)

/-- One iteration of the `render` event loop: in background mode a resolved
future is consumed at the top of the iteration and the `continue` skips
`window.read`, so the pending event `ev` is not consumed; otherwise the
iteration reads and dispatches `ev`. -/
def loopIter (g : GuichetState) (st : LoopState) (ev : Event) :
    Except RenderErr StepResult :=
  if g.cfg.runInNewThread then
    match consumeResolved st with
    | some st' => .ok (.next st')
    | Option.none => handleEvent g st ev
  else handleEvent g st ev

/-- The background worker finishing between two loop iterations: the
outstanding future becomes done. -/
def resolveFuture (st : LoopState) : LoopState :=
  match st.future with
  | some f => { st with future := some { f with done := true } }
  | Option.none => st

/-- The label of a layout row when it is a parameter row. -/
def rowLabel : Row → Option String
  | .param l _ _ => some l
  | _ => Option.none

/-- The displayed initial text of a layout row when it is a parameter row:
the toolkit renders the constructor argument with `str`. -/
def initDisplay : Row → Option String
  | .param _ _ v => some (pyStr v)
  | _ => Option.none

/-- A wrapped callable that always raises an exception whose `str` is
`"bad"` (such as `ValueError("bad")`). -/
def fBad : PyFunc := fun _ => .error "bad"

/-- A wrapped callable that returns `None`. -/
def fOk : PyFunc := fun _ => .ok .none

/-- A single `int`-annotated parameter `x` with no default. -/
def pIntX : Param := ⟨"x", Ann.aint, Option.none⟩

/-- A loop state with no outstanding future and an empty output region. -/
def st0 : LoopState := ⟨Option.none, "", []⟩

/-- Fixture `Guichet(f)` for a one-parameter callable `f(x: int)`, all other
arguments at their defaults. -/
def gC1 : GuichetState := guichetInit fOk "f" [pIntX] defaultInitArgs

/-- Fixture `Guichet(f)` for a zero-parameter callable raising `ValueError("bad")`. -/
def gSyncBad : GuichetState := guichetInit fBad "f" [] defaultInitArgs

/-- Constructor arguments with `run_in_new_thread=True`. -/
def bgArgs : InitArgs := { defaultInitArgs with runInNewThread := true }

/-- Fixture `Guichet(f, run_in_new_thread=True)` for a zero-parameter callable
raising `ValueError("bad")`. -/
def gBg : GuichetState := guichetInit fBad "slow" [] bgArgs

/-- Fixture `Guichet(f, run_in_new_thread=True, redirect_stdout=False)`. -/
def gBgNoRedirect : GuichetState :=
  guichetInit fBad "slow" [] { bgArgs with redirectStdout := false }

/-- A loop state whose background invocation is outstanding and unresolved
(`future.done()` is false). -/
def stBusy : LoopState := ⟨some ⟨.error "x", false⟩, "", []⟩

/-- A loop state whose background invocation has resolved with an exception
whose `str` is `"bad"`. -/
def stErrDone : LoopState := ⟨some ⟨.error "bad", true⟩, "", []⟩

/-- Lemma: `memberOf` agrees with list membership. -/
theorem memberOf_eq_true_iff (v : PyVal) (l : List PyVal) :
    memberOf v l = true ↔ v ∈ l := by
  simp [memberOf]

/-- Appending an element makes it a member. -/
theorem memberOf_append_self (v : PyVal) (l : List PyVal) :
    memberOf v (l ++ [v]) = true := by
  simp [memberOf]

/-- C1, counterexample: coercion does not recover every conversion failure.
For the parameter `x: int` and the raw UI value `"abc"`, `int("abc")` raises
`ValueError`, which the `except TypeError` handler does not catch, so the
coercion step fails and the exception escapes the render-loop iteration. -/
theorem c1_counterexample :
    coerceArg pIntX (.str "abc") = .error .valueError ∧
    loopIter gC1 st0 (.run [.str "abc"]) = .error (.py .valueError) :=
  ⟨rfl, rfl⟩

/-- C1, amended: coercion converts each raw UI value by calling the
parameter's annotation; a successful conversion is used, a `TypeError` is
recovered silently by falling back to the raw value, but any other
conversion failure (such as `ValueError`) is not recovered and propagates
out of the render loop. -/
theorem c1_coercion_amended :
    (∀ p v w, applyAnn p.ann v = .ok w → coerceArg p v = .ok w) ∧
    (∀ p v, applyAnn p.ann v = .error .typeError → coerceArg p v = .ok v) ∧
    (∀ p v, applyAnn p.ann v = .error .valueError →
      coerceArg p v = .error .valueError) := by
  refine ⟨fun p v w h => ?_, fun p v h => ?_, fun p v h => ?_⟩ <;>
    simp [coerceArg, h]

/-- C1, witness: the three coercion outcomes at concrete inputs —
`int("5")` converts, the absent annotation `_empty("a")` raises `TypeError`
and falls back to the raw string, and `int("abc")` raises `ValueError` and
escapes. -/
theorem c1_coercion_amended_witness :
    coerceArg ⟨"x", Ann.aint, Option.none⟩ (.str "5") = .ok (.int 5) ∧
    coerceArg ⟨"y", Ann.empty, Option.none⟩ (.str "a") = .ok (.str "a") ∧
    coerceArg ⟨"z", Ann.aint, Option.none⟩ (.str "abc") = .error .valueError :=
  ⟨c1_coercion_amended.1 _ _ _ rfl, c1_coercion_amended.2.1 _ _ rfl,
    c1_coercion_amended.2.2 _ _ rfl⟩

/-- C2: when the wrapped callable raises during a synchronous invocation,
the iteration returns normally (no exception escapes the loop) and the
output region is updated with `"Error: "` followed by the exception
message. -/
theorem c2_sync_error_boundary (g : GuichetState) (st : LoopState)
    (vals : List PyVal) (kw : List (String × PyVal)) (msg : String)
    (hsync : g.cfg.runInNewThread = false)
    (hco : coerceAll (getParams g.cfg.ignoreParams g.sig) vals = .ok kw)
    (hf : g.mainFunction (injectWindow g.cfg.windowParam kw) = .error msg) :
    loopIter g st (.run vals) = .ok (.next { st with output := "Error: " ++ msg }) := by
  simp [loopIter, handleEvent, hsync, hco, hf]

/-- C2, witness: a callable raising `ValueError("bad")` yields output
exactly `"Error: bad"`. -/
theorem c2_sync_error_boundary_witness :
    loopIter gSyncBad st0 (.run []) = .ok (.next { st0 with output := "Error: bad" }) :=
  c2_sync_error_boundary gSyncBad st0 [] [] "bad" rfl rfl rfl

/-- C3: at the failing input — background mode with a resolved invocation
that raised `ValueError("bad")` — the loop consumes the result at the top of
the iteration (the pending event is never read) and writes `"Error: bad"`,
but `future = None` sits after `future.result()` inside the `try`, so in the
error case the future is never cleared: the next iteration consumes the same
resolved invocation again (and so on forever, never reading another event).
Only the success case clears the future, as the last conjunct shows. -/
theorem c3_error_future_never_cleared :
    (∀ ev, loopIter gBg stErrDone ev
      = .ok (.next { stErrDone with output := "Error: bad" })) ∧
    loopIter gBg { stErrDone with output := "Error: bad" } .timeout
      = .ok (.next { stErrDone with output := "Error: bad" }) ∧
    loopIter gBg { stErrDone with future := some ⟨.ok (.str "hi"), true⟩ } .timeout
      = .ok (.next ⟨Option.none, "hi", []⟩) :=
  ⟨fun _ => rfl, rfl, rfl⟩

/-- C4, counterexample: with `redirect_stdout=False`, firing the trigger
while an unresolved invocation is outstanding prints the wait message to the
process standard output, not to the output region — the output region stays
empty and the future is unchanged. -/
theorem c4_counterexample :
    loopIter gBgNoRedirect stBusy (.run [])
      = .ok (.next { stBusy with stdout := ["Please wait..."] }) ∧
    ({ stBusy with stdout := ["Please wait..."] } : LoopState).output = "" ∧
    gBgNoRedirect.cfg.waitMessage = "Please wait..." :=
  ⟨rfl, rfl, rfl⟩

/-- C4, amended: in background-execution mode, firing the trigger while an
unresolved invocation exists starts no new call (the future is unchanged, so
at most one invocation is ever outstanding) and prints the configured wait
message — which is appended to the output region when `redirect_stdout` is
enabled (the default) and goes to the process standard output otherwise. -/
theorem c4_busy_trigger_amended (g : GuichetState) (st : LoopState) (f : Future)
    (vals : List PyVal)
    (hbg : g.cfg.runInNewThread = true)
    (hf : st.future = some f) (hnd : f.done = false) :
    loopIter g st (.run vals)
      = .ok (.next (printLine g.cfg.redirectStdout st g.cfg.waitMessage)) ∧
    (printLine g.cfg.redirectStdout st g.cfg.waitMessage).future = st.future := by
  constructor
  · simp [loopIter, handleEvent, consumeResolved, isBusy, hbg, hf, hnd]
  · simp only [printLine]
    split <;> rfl

/-- C4, witness: with default arguments plus `run_in_new_thread=True`, a
second trigger while the first invocation is unresolved appends
`"Please wait..."` to the output region and leaves the single outstanding
future in place. -/
theorem c4_busy_trigger_amended_witness :
    loopIter gBg stBusy (.run [])
      = .ok (.next (printLine gBg.cfg.redirectStdout stBusy gBg.cfg.waitMessage)) ∧
    (printLine gBg.cfg.redirectStdout stBusy gBg.cfg.waitMessage).future = stBusy.future :=
  c4_busy_trigger_amended gBg stBusy ⟨.error "x", false⟩ [] rfl rfl rfl

/-- The row emitted for a parameter is always a parameter row labelled with
the parameter's name. -/
theorem rowLabel_paramRow (sd : Bool) (p : Param) :
    rowLabel (paramRow sd p) = some p.name := by
  obtain ⟨n, a, d⟩ := p
  cases d <;> cases sd <;> rfl

/-- C5: for a callable with N visible (non-ignored) parameters the layout is
exactly the N parameter rows in declaration order, then one trigger-button
row, then one output-region row — N + 2 rows in total, each parameter row a
label carrying the parameter's name plus one input widget. -/
theorem c5_layout_shape (cfg : Config) (sig : List Param) :
    (makeLayout cfg sig).length = (getParams cfg.ignoreParams sig).length + 2 ∧
    (makeLayout cfg sig).take (getParams cfg.ignoreParams sig).length
      = (getParams cfg.ignoreParams sig).map (paramRow cfg.showDefault) ∧
    (makeLayout cfg sig).drop (getParams cfg.ignoreParams sig).length
      = [.button cfg.buttonLabel, .output cfg.outputSize] ∧
    ∀ p : Param, ∃ w v, paramRow cfg.showDefault p = .param p.name w v := by
  refine ⟨?_, ?_, ?_, fun p => ?_⟩
  · simp [makeLayout]
  · rw [makeLayout]
    exact List.take_left' (List.length_map _ _)
  · rw [makeLayout]
    exact List.drop_left' (List.length_map _ _)
  · obtain ⟨n, a, d⟩ := p
    cases d <;> cases h : cfg.showDefault <;> exact ⟨_, _, rfl⟩

/-- C6, counterexample: assigning `title` after construction does not
regenerate the layout — `title` is a plain attribute, not a reactive
property; the stored layout object (witnessed by the `_make_layout` call
counter) is exactly the one from before the mutation. -/
theorem c6_counterexample :
    (setTitle gC1 "New title").outputGen = gC1.outputGen ∧
    (setTitle gC1 "New title").layout = gC1.layout ∧
    ¬ (setTitle gC1 "New title").outputGen = gC1.outputGen + 1 := by
  refine ⟨rfl, rfl, by decide⟩

/-- C6, amended: exactly six configuration attributes are reactive
properties whose setters synchronously regenerate the layout
(`main_function`, `output_size`, `button_label`, `show_default`,
`ignore_params`, `window_param`) — after any of them the stored layout is
`_make_layout` of the new configuration; the other six (`title`, `theme`,
`redirect_stdout`, `run_in_new_thread`, `wait_message`, `refresh_time`) are
plain attribute writes that leave the stored layout untouched (the layout
does not depend on them). -/
theorem c6_reactive_setters_amended (st : GuichetState) :
    (∀ f sig, (setMainFunction st f sig).outputGen = st.outputGen + 1 ∧
      (setMainFunction st f sig).layout
        = makeLayout (setMainFunction st f sig).cfg (setMainFunction st f sig).sig) ∧
    (∀ v, (setOutputSize st v).outputGen = st.outputGen + 1 ∧
      (setOutputSize st v).layout = makeLayout (setOutputSize st v).cfg st.sig) ∧
    (∀ v, (setButtonLabel st v).outputGen = st.outputGen + 1 ∧
      (setButtonLabel st v).layout = makeLayout (setButtonLabel st v).cfg st.sig) ∧
    (∀ v, (setShowDefault st v).outputGen = st.outputGen + 1 ∧
      (setShowDefault st v).layout = makeLayout (setShowDefault st v).cfg st.sig) ∧
    (∀ v, (setIgnoreParams st v).outputGen = st.outputGen + 1 ∧
      (setIgnoreParams st v).layout = makeLayout (setIgnoreParams st v).cfg st.sig) ∧
    (∀ v, (setWindowParam st v).outputGen = st.outputGen + 1 ∧
      (setWindowParam st v).layout = makeLayout (setWindowParam st v).cfg st.sig) ∧
    (∀ v, (setTitle st v).outputGen = st.outputGen ∧ (setTitle st v).layout = st.layout) ∧
    (∀ v, (setTheme st v).outputGen = st.outputGen ∧ (setTheme st v).layout = st.layout) ∧
    (∀ v, (setRedirectStdout st v).outputGen = st.outputGen ∧
      (setRedirectStdout st v).layout = st.layout) ∧
    (∀ v, (setRunInNewThread st v).outputGen = st.outputGen ∧
      (setRunInNewThread st v).layout = st.layout) ∧
    (∀ v, (setWaitMessage st v).outputGen = st.outputGen ∧
      (setWaitMessage st v).layout = st.layout) ∧
    (∀ v, (setRefreshTime st v).outputGen = st.outputGen ∧
      (setRefreshTime st v).layout = st.layout) :=
  ⟨fun _ _ => ⟨rfl, rfl⟩, fun _ => ⟨rfl, rfl⟩, fun _ => ⟨rfl, rfl⟩,
    fun _ => ⟨rfl, rfl⟩, fun _ => ⟨rfl, rfl⟩, fun _ => ⟨rfl, rfl⟩,
    fun _ => ⟨rfl, rfl⟩, fun _ => ⟨rfl, rfl⟩, fun _ => ⟨rfl, rfl⟩,
    fun _ => ⟨rfl, rfl⟩, fun _ => ⟨rfl, rfl⟩, fun _ => ⟨rfl, rfl⟩⟩

/-- The in-place append the `window_param` setter performs keeps the value a
member. -/
theorem memberOf_after_set (v : PyVal) (l : List PyVal) :
    memberOf v (if memberOf v l then l else l ++ [v]) = true := by
  by_cases h : memberOf v l
  · simp [h]
  · simp [h, memberOf_append_self]

/-- Occurrence count after the conditional append: one occurrence when the
value was absent, unchanged otherwise. -/
theorem countP_after_set (v : PyVal) (l : List PyVal) :
    (if memberOf v l then l else l ++ [v]).countP (fun x => x = v)
      = (if l.countP (fun x => x = v) = 0 then 1
          else l.countP (fun x => x = v)) := by
  by_cases h : memberOf v l
  · rw [if_pos h]
    have hv : v ∈ l := (memberOf_eq_true_iff v l).mp h
    have hpos : l.countP (fun x => x = v) ≠ 0 := by
      intro h0
      rw [List.countP_eq_zero] at h0
      have := h0 v hv
      simp at this
    rw [if_neg hpos]
  · rw [if_neg h]
    have h0 : l.countP (fun x => x = v) = 0 := by
      rw [List.countP_eq_zero]
      intro a ha hav
      apply h
      rw [memberOf_eq_true_iff]
      have : a = v := by simpa using hav
      exact this ▸ ha
    rw [List.countP_append, h0, if_pos rfl]
    simp

/-- When a name is in the ignore list, no row of the generated layout is a
parameter row labelled with it. -/
theorem makeLayout_excludes_ignored (cfg : Config) (sig : List Param) (w : String)
    (hmem : PyVal.str w ∈ cfg.ignoreParams) :
    ((makeLayout cfg sig).all (fun r => rowLabel r ≠ some w)) = true := by
  rw [List.all_eq_true]
  intro r hr
  rw [makeLayout] at hr
  rcases List.mem_append.mp hr with hr | hr
  · rw [List.mem_map] at hr
    obtain ⟨p, hp, rfl⟩ := hr
    rw [getParams, List.mem_filter] at hp
    obtain ⟨hsig, hcond⟩ := hp
    have hnotempty : cfg.ignoreParams.isEmpty = false := by
      cases hl : cfg.ignoreParams with
      | nil => rw [hl] at hmem; exact absurd hmem (List.not_mem_nil _)
      | cons a t => simp [hl]
    rw [hnotempty] at hcond
    simp only [Bool.false_or, Bool.not_eq_true'] at hcond
    have hnotin : PyVal.str p.name ∉ cfg.ignoreParams := by
      intro hin
      rw [← memberOf_eq_true_iff] at hin
      rw [hcond] at hin
      exact Bool.false_ne_true hin
    have hne : p.name ≠ w := by
      intro hw
      exact hnotin (hw ▸ hmem)
    rw [rowLabel_paramRow]
    simpa using hne
  · have : r = .button cfg.buttonLabel ∨ r = .output cfg.outputSize := by
      simpa using hr
    rcases this with rfl | rfl <;> simp [rowLabel]

/-- C7: assigning `window_param` a name makes that name a member of
`ignore_params`; the inclusion is idempotent (the occurrence count becomes
one when the name was absent and is unchanged otherwise, and a second
identical assignment leaves the list as it is); and the parameter of that
name never appears in the regenerated layout. -/
theorem c7_window_param_in_ignore (st : GuichetState) (w : String) :
    memberOf (.str w) (setWindowParam st (.str w)).cfg.ignoreParams = true ∧
    (setWindowParam st (.str w)).cfg.ignoreParams.countP (fun x => x = PyVal.str w)
      = (if st.cfg.ignoreParams.countP (fun x => x = PyVal.str w) = 0 then 1
          else st.cfg.ignoreParams.countP (fun x => x = PyVal.str w)) ∧
    (setWindowParam (setWindowParam st (.str w)) (.str w)).cfg.ignoreParams
      = (setWindowParam st (.str w)).cfg.ignoreParams ∧
    ((setWindowParam st (.str w)).layout.all (fun r => rowLabel r ≠ some w)) = true := by
  refine ⟨memberOf_after_set _ _, countP_after_set _ _, ?_, ?_⟩
  · have hm : memberOf (.str w) (setWindowParam st (.str w)).cfg.ignoreParams = true :=
      memberOf_after_set _ _
    show (if memberOf (.str w) (setWindowParam st (.str w)).cfg.ignoreParams
        then (setWindowParam st (.str w)).cfg.ignoreParams
        else (setWindowParam st (.str w)).cfg.ignoreParams ++ [.str w])
      = (setWindowParam st (.str w)).cfg.ignoreParams
    rw [if_pos hm]
  · apply makeLayout_excludes_ignored
    rw [← memberOf_eq_true_iff]
    exact memberOf_after_set _ _

/-- C8: the annotation-to-widget mapping is the fixed `_TYPE_MAP` table with
`sg.InputText` as the fallback: `int`, `float` and `str` map to a text
field, `bool` to a checkbox, `SecretStr` to a text field masked by the
`password_char="*"` extra option, and an absent or unrecognised annotation
to a plain text field.  As a Lean function of the annotation alone it is
pure and deterministic by construction. -/
theorem c8_widget_table :
    widgetFor .aint = ⟨.inputText, []⟩ ∧
    widgetFor .afloat = ⟨.inputText, []⟩ ∧
    widgetFor .astr = ⟨.inputText, []⟩ ∧
    widgetFor .abool = ⟨.checkbox, []⟩ ∧
    widgetFor .secretStr = ⟨.inputText, [("password_char", "*")]⟩ ∧
    widgetFor .empty = ⟨.inputText, []⟩ ∧
    ∀ conv, widgetFor (.other conv) = ⟨.inputText, []⟩ :=
  ⟨rfl, rfl, rfl, rfl, rfl, rfl, fun _ => rfl⟩

/-- C9: with `show_default` enabled, a parameter with a default yields an
input widget whose initial value is that default (displayed via `str`, so a
default of `3` shows the text `"3"`); with `show_default` disabled the
initial value is the empty string regardless of the default; a parameter
with no default always yields an empty widget; and the missing-default
sentinel is distinct from an explicit `None` default — the two produce
different rows. -/
theorem c9_default_prefill (p : Param) :
    (∀ d, p.default = some d →
      paramRow true p = .param p.name (widgetFor p.ann) d ∧
      initDisplay (paramRow true p) = some (pyStr d)) ∧
    paramRow false p = .param p.name (widgetFor p.ann) (.str "") ∧
    (p.default = Option.none →
      paramRow true p = .param p.name (widgetFor p.ann) (.str "")) ∧
    paramRow true { p with default := some PyVal.none }
      ≠ paramRow true { p with default := Option.none } := by
  obtain ⟨n, a, d⟩ := p
  refine ⟨fun v hv => ?_, ?_, fun hv => ?_, ?_⟩
  · cases hv
    exact ⟨rfl, rfl⟩
  · cases d <;> rfl
  · cases hv
    rfl
  · intro h
    simp [paramRow] at h

/-- C9, witness: `f(x: int = 3)` pre-fills the text `"3"` when
`show_default` is enabled, an empty field when it is disabled, and an
unannotated-default-free parameter yields an empty field. -/
theorem c9_default_prefill_witness :
    (paramRow true ⟨"x", Ann.aint, some (.int 3)⟩
        = .param "x" ⟨.inputText, []⟩ (.int 3) ∧
      initDisplay (paramRow true ⟨"x", Ann.aint, some (.int 3)⟩) = some "3") ∧
    paramRow false ⟨"x", Ann.aint, some (.int 3)⟩
      = .param "x" ⟨.inputText, []⟩ (.str "") ∧
    paramRow true ⟨"y", Ann.astr, Option.none⟩
      = .param "y" ⟨.inputText, []⟩ (.str "") :=
  ⟨(c9_default_prefill _).1 _ rfl, (c9_default_prefill _).2.1,
    (c9_default_prefill _).2.2.1 rfl⟩

/-- C10: constructing a `Guichet` with the default `window_param=None`
appends the value `None` to the public `ignore_params` list; when the caller
also passes no ignore list, `ignore_params` ends up exactly `[None]`. -/
theorem c10_none_in_ignore (f : PyFunc) (fname : String) (sig : List Param)
    (a : InitArgs) (hw : a.windowParam = PyVal.none) :
    PyVal.none ∈ (guichetInit f fname sig a).cfg.ignoreParams ∧
    (a.ignoreParams = Option.none →
      (guichetInit f fname sig a).cfg.ignoreParams = [PyVal.none]) := by
  have hfin : (guichetInit f fname sig a).cfg.ignoreParams
      = (if memberOf PyVal.none (a.ignoreParams.getD [])
          then a.ignoreParams.getD []
          else a.ignoreParams.getD [] ++ [PyVal.none]) := by
    rw [guichetInit, hw]
    rfl
  constructor
  · rw [hfin]
    by_cases h : memberOf PyVal.none (a.ignoreParams.getD [])
    · rw [if_pos h]
      exact (memberOf_eq_true_iff _ _).mp h
    · rw [if_neg h]
      simp
  · intro hig
    rw [hfin, hig]
    rfl

/-- C10, witness: with every constructor argument at its default,
`ignore_params` after construction is exactly `[None]`. -/
theorem c10_none_in_ignore_witness :
    PyVal.none ∈ (guichetInit fOk "f" [] defaultInitArgs).cfg.ignoreParams ∧
    (guichetInit fOk "f" [] defaultInitArgs).cfg.ignoreParams = [PyVal.none] :=
  ⟨(c10_none_in_ignore fOk "f" [] defaultInitArgs rfl).1,
    (c10_none_in_ignore fOk "f" [] defaultInitArgs rfl).2 rfl⟩

end Guichet
